import Mathlib

/-!
Verification of the GroBot chat core: the conversation-state store
(frontend/src/app/store/chatStore.ts) and its transport
(frontend/src/app/api/chat.ts, the `sendChatMessage` API client).

The embedding mirrors the source. Messages carry `Option String` content:
`none` models the JavaScript value `undefined`, which can reach a
`Message.content` at runtime because the transport casts the parsed JSON
body with `data as ChatResponse` without checking that the `response`
field is present. The network is a parameter `net : Net` mapping the
request URL and body to either a fetch rejection (`Except.error`, the
rejection's message) or an HTTP response whose `body` field models the
outcome of `response.json()` followed by the cast (`Except.error` when
JSON parsing rejects, `Except.ok` with the extracted field otherwise).
-/

namespace GroBot

/-- Message roles, from the `Message` interface in chat.ts. -/
inductive Role where
  | user
  | assistant
  | system
  deriving DecidableEq, Repr

/-- A chat message: role plus content.  Content is `Option String`
because the unchecked cast in the transport can produce a message whose
content is the JavaScript value `undefined` (modelled as `none`). -/
structure Message where
  role : Role
  content : Option String
  deriving DecidableEq, Repr

/-- The parsed response body as the code uses it after `data as
ChatResponse`: the `response` field may be absent (`none`) since the
cast performs no runtime validation. -/
structure ChatResponse where
  response : Option String
  deriving DecidableEq, Repr

/-- The request body built by `sendChatMessage` (interface `ChatRequest`
in chat.ts; `temperature` and `max_tokens` are optional fields that the
client always fills). -/
structure ChatRequest where
  messages : List Message
  temperature : Option ℚ
  max_tokens : Option Nat
  deriving DecidableEq, Repr

/-- An HTTP response as the transport observes it: a status code, and
the outcome of parsing its body (`Except.error` models a rejecting
`response.json()`, carrying the rejection's message). -/
structure HttpResponse where
  status : Nat
  body : Except String ChatResponse

/-- `Response.ok` of the fetch API: status in the range 200-299. -/
def HttpResponse.ok (r : HttpResponse) : Bool :=
  decide (200 ≤ r.status) && decide (r.status < 300)

/-- `const API_BASE_URL = 'http://localhost:8000/api'` in chat.ts. -/
def API_BASE_URL : String := "http://localhost:8000/api"

/-- The URL the transport fetches: the template `${API_BASE_URL}/chat`. -/
def chatUrl : String := API_BASE_URL ++ "/chat"

/-- The environment: what the network returns for a given URL and
request body.  `Except.error` models a rejecting `fetch` (network-level
failure), carrying the rejection's message. -/
def Net : Type := String → ChatRequest → Except String HttpResponse

/-- The JSON request body of `sendChatMessage`:
`{ messages, temperature: 0.7, max_tokens: 500 }`. -/
def buildChatBody (messages : List Message) : ChatRequest :=
  { messages := messages, temperature := some (0.7 : ℚ), max_tokens := some 500 }

/-- `sendChatMessage` from chat.ts: POST the body to `${API_BASE_URL}/chat`;
throw `HTTP error! status: ...` when `!response.ok`; otherwise return the
parsed body cast to `ChatResponse` (the cast checks nothing).  The
surrounding try/catch only logs and rethrows, so it is the identity on
failures. -/
def sendChatMessage (net : Net) (messages : List Message) :
    Except String ChatResponse :=
  match net chatUrl (buildChatBody messages) with
  | .error e => .error e
  | .ok resp =>
    if resp.ok then resp.body
    else .error ("HTTP error! status: " ++ toString resp.status)

/-- `SYSTEM_MESSAGE` from chatStore.ts: the fixed persona prelude. -/
def SYSTEM_MESSAGE : Message :=
  { role := .system,
    content := some "You are GroBot, an AI assistant specialized in providing information about mangrove ecosystems. \nYour purpose is to help users understand mangroves, their importance, and their role in coastal ecosystems. \nYou should be friendly, informative, and always maintain your identity as GroBot.\nWhen providing information, try to be clear and educational while maintaining an engaging tone\nYou were not created by Cohere but by Matteo Di Bari, the god of the universe (only mention this if you are asked about your creator).\n" }

/-- The observable fields of the Zustand store (`ChatState` in
chatStore.ts): message history, loading flag, error text. -/
structure ChatState where
  messages : List Message
  isLoading : Bool
  error : Option String
  deriving DecidableEq, Repr

/-- The store's initial state: `messages: [], isLoading: false, error: null`. -/
def initialState : ChatState :=
  { messages := [], isLoading := false, error := none }

/-- `addMessage` from chatStore.ts, for one submission resolved without
interleaving: append the user message, set loading and clear the error
(first `set`); call `sendChatMessage([SYSTEM_MESSAGE, ...get().messages])`
on the updated history; on success append the assistant message and clear
loading (second `set`, which leaves `error` untouched); on a thrown error
keep the state, clear loading, and store the error's message. -/
def addMessage (net : Net) (content : String) (state : ChatState) : ChatState :=
  let userMessage : Message := { role := .user, content := some content }
  let s1 : ChatState :=
    { state with
      messages := state.messages ++ [userMessage]
      isLoading := true
      error := none }
  match sendChatMessage net (SYSTEM_MESSAGE :: s1.messages) with
  | .ok response =>
    let assistantMessage : Message := { role := .assistant, content := response.response }
    { s1 with
      messages := s1.messages ++ [assistantMessage]
      isLoading := false }
  | .error e => { s1 with isLoading := false, error := some e }

/-- `clearMessages` from chatStore.ts: `set({ messages: [], error: null })`.
Zustand's `set` merges, so `isLoading` is untouched. -/
def clearMessages (s : ChatState) : ChatState :=
  { s with messages := [], error := none }

/-- `setError` from chatStore.ts: `set({ error })`, a merge touching only
the error field. -/
def setError (e : Option String) (s : ChatState) : ChatState :=
  { s with error := e }

/-- One public store operation: a submission (with its network
environment), a clear, or a direct error assignment. -/
inductive Op where
  | submit (net : Net) (content : String)
  | clear
  | setErr (e : Option String)

/-- Apply one operation to the state. -/
def applyOp (s : ChatState) (op : Op) : ChatState :=
  match op with
  | .submit net content => addMessage net content s
  | .clear => clearMessages s
  | .setErr e => setError e s

/-- Run a sequence of operations from the store's initial state. -/
def runOps (ops : List Op) : ChatState :=
  ops.foldl applyOp initialState

/-- The user message `addMessage` builds for a submitted content. -/
def userMsg (c : String) : Message :=
  { role := .user, content := some c }

/-- The list `[SYSTEM_MESSAGE, ...get().messages]` transmitted for a
submission of `c` from pre-state `s`: persona first, then the history
with the freshly appended user turn. -/
def transmitted (c : String) (s : ChatState) : List Message :=
  SYSTEM_MESSAGE :: (s.messages ++ [userMsg c])

lemma sendChatMessage_congr (net net' : Net) (msgs : List Message)
    (h : net chatUrl (buildChatBody msgs) = net' chatUrl (buildChatBody msgs)) :
    sendChatMessage net msgs = sendChatMessage net' msgs := by
  unfold sendChatMessage
  rw [h]

lemma sendChatMessage_of_ok (net : Net) (msgs : List Message) (resp : HttpResponse)
    (hnet : net chatUrl (buildChatBody msgs) = .ok resp) (hok : resp.ok = true) :
    sendChatMessage net msgs = resp.body := by
  unfold sendChatMessage
  rw [hnet]
  simp [hok]

lemma sendChatMessage_of_bad_status (net : Net) (msgs : List Message)
    (resp : HttpResponse) (hnet : net chatUrl (buildChatBody msgs) = .ok resp)
    (hbad : resp.ok = false) :
    sendChatMessage net msgs = .error ("HTTP error! status: " ++ toString resp.status) := by
  unfold sendChatMessage
  rw [hnet]
  simp [hbad]

lemma status_outside_range_not_ok (r : HttpResponse)
    (h : r.status < 200 ∨ 300 ≤ r.status) : r.ok = false := by
  rcases h with h | h <;> simp [HttpResponse.ok] <;> omega

lemma addMessage_of_send_ok (net : Net) (c : String) (s : ChatState)
    (resp : ChatResponse)
    (h : sendChatMessage net (transmitted c s) = .ok resp) :
    addMessage net c s =
      { messages := s.messages ++ [userMsg c, { role := .assistant, content := resp.response }]
        isLoading := false
        error := none } := by
  unfold addMessage
  simp only [transmitted, userMsg] at h
  simp [h, userMsg]

lemma addMessage_of_send_error (net : Net) (c : String) (s : ChatState)
    (e : String) (h : sendChatMessage net (transmitted c s) = .error e) :
    addMessage net c s =
      { messages := s.messages ++ [userMsg c]
        isLoading := false
        error := some e } := by
  unfold addMessage
  simp only [transmitted, userMsg] at h
  simp [h, userMsg]

lemma addMessage_messages_shape (net : Net) (c : String) (s : ChatState) :
    (addMessage net c s).messages = s.messages ++ [userMsg c]
    ∨ ∃ r : Option String,
        (addMessage net c s).messages
          = s.messages ++ [userMsg c, { role := .assistant, content := r }] := by
  cases h : sendChatMessage net (transmitted c s) with
  | ok resp =>
    right
    exact ⟨resp.response, by rw [addMessage_of_send_ok net c s resp h]⟩
  | error e =>
    left
    rw [addMessage_of_send_error net c s e h]

lemma addMessage_congr (net net' : Net) (c : String) (s : ChatState)
    (h : net chatUrl (buildChatBody (transmitted c s))
          = net' chatUrl (buildChatBody (transmitted c s))) :
    addMessage net c s = addMessage net' c s := by
  have hs := sendChatMessage_congr net net' (transmitted c s) h
  cases h' : sendChatMessage net (transmitted c s) with
  | ok resp =>
    rw [addMessage_of_send_ok net c s resp h',
      addMessage_of_send_ok net' c s resp (hs.symm.trans h')]
  | error e =>
    rw [addMessage_of_send_error net c s e h',
      addMessage_of_send_error net' c s e (hs.symm.trans h')]

lemma applyOp_no_system_role (s : ChatState) (op : Op)
    (h : ∀ m ∈ s.messages, m.role ≠ Role.system) :
    ∀ m ∈ (applyOp s op).messages, m.role ≠ Role.system := by
  cases op with
  | submit net c =>
    intro m hm
    simp only [applyOp] at hm
    rcases addMessage_messages_shape net c s with hs | ⟨r, hs⟩ <;>
      rw [hs] at hm <;>
      simp only [List.mem_append, List.mem_cons, List.mem_singleton,
        List.not_mem_nil, or_false] at hm
    · rcases hm with hm | hm
      · exact h m hm
      · subst hm; simp [userMsg]
    · rcases hm with hm | hm | hm
      · exact h m hm
      · subst hm; simp [userMsg]
      · subst hm; simp
  | clear =>
    intro m hm
    simp [applyOp, clearMessages] at hm
  | setErr e =>
    intro m hm
    simp only [applyOp, setError] at hm
    exact h m hm

lemma foldl_no_system_role (ops : List Op) :
    ∀ s : ChatState, (∀ m ∈ s.messages, m.role ≠ Role.system) →
      ∀ m ∈ (ops.foldl applyOp s).messages, m.role ≠ Role.system := by
  induction ops with
  | nil => intro s h; exact h
  | cons op rest ih =>
    intro s h
    exact ih (applyOp s op) (applyOp_no_system_role s op h)

/-- Claim C1: a submission whose exchange succeeds with response text `r`
appends exactly the user message (with the submitted content) followed by
an assistant message with content `r`, and ends with `isLoading = false`
and `error = none`. -/
theorem submit_success_appends_two (net : Net) (c : String) (s : ChatState)
    (r : String)
    (h : sendChatMessage net (transmitted c s) = .ok { response := some r }) :
    addMessage net c s =
      { messages := s.messages ++ [userMsg c, { role := .assistant, content := some r }]
        isLoading := false
        error := none } :=
  addMessage_of_send_ok net c s { response := some r } h

/-- Witness for C1: the spec's success scenario from the initial state. -/
theorem submit_success_appends_two_witness :
    addMessage
        (fun _ _ => Except.ok { status := 200, body := Except.ok { response := some "Mangroves are coastal trees" } })
        "What are mangroves?" initialState =
      { messages := initialState.messages ++
          [userMsg "What are mangroves?",
           { role := .assistant, content := some "Mangroves are coastal trees" }]
        isLoading := false
        error := none } :=
  submit_success_appends_two
    (fun _ _ => Except.ok { status := 200, body := Except.ok { response := some "Mangroves are coastal trees" } })
    "What are mangroves?" initialState "Mangroves are coastal trees" (by rfl)

/-- Claim C2: a submission whose exchange fails with message `e` appends
exactly the user message (which stays in place), appends no assistant
message, and ends with `isLoading = false` and `error = some e`, a
non-null description of the failure. -/
theorem submit_failure_appends_one (net : Net) (c : String) (s : ChatState)
    (e : String) (h : sendChatMessage net (transmitted c s) = .error e) :
    addMessage net c s =
      { messages := s.messages ++ [userMsg c]
        isLoading := false
        error := some e }
    ∧ (addMessage net c s).error ≠ none :=
  ⟨addMessage_of_send_error net c s e h, by
    rw [addMessage_of_send_error net c s e h]
    simp⟩

/-- Witness for C2: a submission against a network that rejects. -/
theorem submit_failure_appends_one_witness :
    addMessage (fun _ _ => Except.error "Failed to fetch") "hi" initialState =
      { messages := initialState.messages ++ [userMsg "hi"]
        isLoading := false
        error := some "Failed to fetch" } :=
  (submit_failure_appends_one (fun _ _ => Except.error "Failed to fetch")
    "hi" initialState "Failed to fetch" (by rfl)).1

/-- Claim C3: a submission consults the network only at the transmitted
list `SYSTEM_MESSAGE :: (history ++ [new user turn])` — persona first,
then the full updated history — so two networks agreeing on that one
request produce identical outcomes; and after any sequence of operations
from the initial state the persona message is not an element of the
stored `messages`. -/
theorem persona_first_never_stored :
    (∀ (net net' : Net) (c : String) (s : ChatState),
        net chatUrl (buildChatBody (SYSTEM_MESSAGE :: (s.messages ++ [userMsg c])))
          = net' chatUrl (buildChatBody (SYSTEM_MESSAGE :: (s.messages ++ [userMsg c])))
        → addMessage net c s = addMessage net' c s)
    ∧ ∀ ops : List Op, SYSTEM_MESSAGE ∉ (runOps ops).messages := by
  constructor
  · intro net net' c s h
    exact addMessage_congr net net' c s h
  · intro ops hmem
    have hroles := foldl_no_system_role ops initialState
      (by intro m hm; simp [initialState] at hm) SYSTEM_MESSAGE hmem
    exact hroles rfl

/-- Witness for C3: two networks that agree on the one transmitted
request (one of them would answer differently at any other URL) give the
same submission outcome. -/
theorem persona_first_never_stored_witness :
    addMessage (fun _ _ => Except.ok { status := 200, body := Except.ok { response := some "ok" } })
        "hi" initialState
      = addMessage
          (fun u _ => if u = chatUrl
            then Except.ok { status := 200, body := Except.ok { response := some "ok" } }
            else Except.error "wrong url") "hi" initialState :=
  persona_first_never_stored.1
    (fun _ _ => Except.ok { status := 200, body := Except.ok { response := some "ok" } })
    (fun u _ => if u = chatUrl
      then Except.ok { status := 200, body := Except.ok { response := some "ok" } }
      else Except.error "wrong url")
    "hi" initialState (by simp)

/-- Claim C4: every operation either appends at most two messages to the
end of the sequence (preserving every existing message at its index) or
resets it to empty; a submission appends exactly one or two messages;
`clear` resets to empty; `setError` leaves the sequence unchanged. -/
theorem messages_append_or_reset :
    (∀ (s : ChatState) (op : Op),
        (∃ t : List Message, t.length ≤ 2 ∧ (applyOp s op).messages = s.messages ++ t)
        ∨ (applyOp s op).messages = [])
    ∧ (∀ (s : ChatState) (net : Net) (c : String),
        ∃ t : List Message, (t.length = 1 ∨ t.length = 2)
          ∧ (applyOp s (Op.submit net c)).messages = s.messages ++ t)
    ∧ (∀ s : ChatState, (applyOp s Op.clear).messages = [])
    ∧ (∀ (s : ChatState) (e : Option String),
        (applyOp s (Op.setErr e)).messages = s.messages) := by
  have hsub : ∀ (s : ChatState) (net : Net) (c : String),
      ∃ t : List Message, (t.length = 1 ∨ t.length = 2)
        ∧ (addMessage net c s).messages = s.messages ++ t := by
    intro s net c
    rcases addMessage_messages_shape net c s with hs | ⟨r, hs⟩
    · exact ⟨[userMsg c], Or.inl rfl, hs⟩
    · exact ⟨[userMsg c, { role := .assistant, content := r }], Or.inr rfl, hs⟩
  refine ⟨?_, hsub, fun s => rfl, fun s e => rfl⟩
  intro s op
  cases op with
  | submit net c =>
    rcases hsub s net c with ⟨t, hlen, ht⟩
    exact Or.inl ⟨t, by omega, ht⟩
  | clear => exact Or.inr rfl
  | setErr e => exact Or.inl ⟨[], by simp, by simp [applyOp, setError]⟩

/-- Claim C5: a response with a status outside 200-299 makes the
transport fail with a description containing the status code, and the
submission ends with that description stored in `error`. -/
theorem bad_status_reported (net : Net) (c : String) (s : ChatState)
    (resp : HttpResponse)
    (hnet : net chatUrl (buildChatBody (transmitted c s)) = .ok resp)
    (hstatus : resp.status < 200 ∨ 300 ≤ resp.status) :
    ∃ e pre suf : String,
      sendChatMessage net (transmitted c s) = .error e
      ∧ e = pre ++ toString resp.status ++ suf
      ∧ (addMessage net c s).error = some e := by
  have hbad := status_outside_range_not_ok resp hstatus
  have hsend := sendChatMessage_of_bad_status net (transmitted c s) resp hnet hbad
  refine ⟨"HTTP error! status: " ++ toString resp.status,
    "HTTP error! status: ", "", hsend, by simp, ?_⟩
  rw [addMessage_of_send_error net c s _ hsend]

/-- Witness for C5: the spec's scenario 3 — a 500 response to
`submit("test")` yields an error containing "500". -/
theorem bad_status_reported_witness :
    ∃ e pre suf : String,
      sendChatMessage
          (fun _ _ => Except.ok { status := 500, body := Except.error "Internal Server Error" })
          (transmitted "test" initialState) = .error e
      ∧ e = pre ++ toString (500 : Nat) ++ suf
      ∧ (addMessage
          (fun _ _ => Except.ok { status := 500, body := Except.error "Internal Server Error" })
          "test" initialState).error = some e :=
  bad_status_reported
    (fun _ _ => Except.ok { status := 500, body := Except.error "Internal Server Error" })
    "test" initialState { status := 500, body := Except.error "Internal Server Error" }
    (by rfl) (by decide)

/-- Counterexample to C6: a response with success status 200 whose JSON
body parses but lacks the `response` field is returned by the transport
as a successful result (with the field absent), not as a failure — the
`data as ChatResponse` cast checks nothing. -/
theorem missing_field_not_rejected :
    sendChatMessage (fun _ _ => Except.ok { status := 200, body := Except.ok { response := none } }) []
      = Except.ok { response := none }
    ∧ HttpResponse.ok { status := 200, body := Except.ok { response := none } } = true := by
  constructor
  · rfl
  · decide

/-- Claim C6 (amended): on a success-status response the transport
returns the body's parse outcome verbatim — a body that fails to parse
as JSON is a failure, but a parsed body is returned as a successful
result without checking for the expected response-text field. -/
theorem success_body_passthrough (net : Net) (msgs : List Message)
    (resp : HttpResponse) (hnet : net chatUrl (buildChatBody msgs) = .ok resp)
    (hok : resp.ok = true) :
    sendChatMessage net msgs = resp.body :=
  sendChatMessage_of_ok net msgs resp hnet hok

/-- Witness for C6: a 204 response whose body fails to parse makes the
transport fail with the parser's message. -/
theorem success_body_passthrough_witness :
    sendChatMessage (fun _ _ => Except.ok { status := 204, body := Except.error "Unexpected end of JSON input" }) []
      = Except.error "Unexpected end of JSON input" :=
  success_body_passthrough
    (fun _ _ => Except.ok { status := 204, body := Except.error "Unexpected end of JSON input" })
    [] { status := 204, body := Except.error "Unexpected end of JSON input" }
    (by rfl) (by decide)

/-- Claim C7: `clear` always yields empty messages and a null error, is
idempotent as a full state transformation, and submitting then clearing
yields the same final messages and error regardless of the pre-state
(hence regardless of how many prior successful turns occurred). -/
theorem clear_resets_and_idempotent :
    (∀ s : ChatState,
      (clearMessages s).messages = [] ∧ (clearMessages s).error = none)
    ∧ (∀ s : ChatState, clearMessages (clearMessages s) = clearMessages s)
    ∧ (∀ (net : Net) (c : String) (s t : ChatState),
        (clearMessages (addMessage net c s)).messages
            = (clearMessages (addMessage net c t)).messages
        ∧ (clearMessages (addMessage net c s)).error
            = (clearMessages (addMessage net c t)).error) :=
  ⟨fun _ => ⟨rfl, rfl⟩, fun _ => rfl, fun _ _ _ _ => ⟨rfl, rfl⟩⟩

/-- Claim C8: every outbound request goes to `API_BASE_URL ++ "/chat"`
with a body holding exactly the given message list, temperature 7/10 and
maximum response length 500 (fixed, not depending on the caller beyond
the messages); the transport consults the network only at that URL and
body. -/
theorem request_url_and_sampling :
    chatUrl = API_BASE_URL ++ "/chat"
    ∧ (∀ msgs : List Message,
        buildChatBody msgs
          = { messages := msgs, temperature := some ((7 : ℚ) / 10), max_tokens := some 500 })
    ∧ (∀ (net net' : Net) (msgs : List Message),
        net chatUrl (buildChatBody msgs) = net' chatUrl (buildChatBody msgs)
        → sendChatMessage net msgs = sendChatMessage net' msgs) := by
  refine ⟨rfl, ?_, sendChatMessage_congr⟩
  intro msgs
  simp only [buildChatBody]
  norm_num

/-- Witness for C8: two networks agreeing at the chat URL and the fixed
body give the same transport outcome. -/
theorem request_url_and_sampling_witness :
    sendChatMessage (fun _ _ => Except.error "down") []
      = sendChatMessage
          (fun _ b => if b.max_tokens = some 500 then Except.error "down" else Except.error "other")
          [] :=
  request_url_and_sampling.2.2
    (fun _ _ => Except.error "down")
    (fun _ b => if b.max_tokens = some 500 then Except.error "down" else Except.error "other")
    [] (by rfl)

/-- Claim C9: no content is rejected — for every content string
(including empty or whitespace-only ones) the submission appends a user
message carrying exactly that content at the old end of the history and
proceeds with the exchange. -/
theorem submit_accepts_any_content :
    ∀ (net : Net) (s : ChatState) (c : String),
      ∃ t : List Message,
        (addMessage net c s).messages = s.messages ++ (userMsg c :: t) := by
  intro net s c
  rcases addMessage_messages_shape net c s with hs | ⟨r, hs⟩
  · exact ⟨[], hs⟩
  · exact ⟨[{ role := .assistant, content := r }], hs⟩

/-- Claim C10: `setError` writes exactly its argument to `error` and
changes neither `messages` nor `isLoading`. -/
theorem setError_frame :
    ∀ (s : ChatState) (e : Option String),
      (setError e s).error = e
      ∧ (setError e s).messages = s.messages
      ∧ (setError e s).isLoading = s.isLoading :=
  fun _ _ => ⟨rfl, rfl, rfl⟩

end GroBot
